import Mathlib

/-!
Shallow embedding of the question-parsing core of `src/app.py`
(`parse_rrb_pdf`, lines 20-82, and its two regex patterns), modelling
Python strings as `List Char`.  The inputs relevant to the claims are
ASCII, so Python's Unicode-aware `\d`, `\s` and `str.strip` are modelled
with `Char.isDigit` and `Char.isWhitespace`.
-/

namespace QuestionBank

abbrev Text := List Char

/-- Python `str.strip()`: drop leading and trailing whitespace. -/
def pyStrip (s : Text) : Text :=
  ((s.dropWhile Char.isWhitespace).reverse.dropWhile Char.isWhitespace).reverse

/-- Noise tokens of the `re.sub` alternation on line 28 of `src/app.py`,
in alternation order. -/
def noiseTokens : List Text :=
  [String.toList "Adda247", String.toList "Adda 247", String.toList "Google Play",
   String.toList "INDIAN RAILWAYS", String.toList "RAILWAY", String.toList "Test Prime"]

/-- One left-to-right scan removing every non-overlapping occurrence of any
token of `toks` (the first alternative wins at each position), which is what
both `re.sub(pat, '', s)` on a literal alternation and `str.replace(tok, '')`
do.  `fuel` only forces termination; with `fuel = s.length` it is never
exhausted, because every step consumes at least one character. -/
def removeTokensFuel (toks : List Text) : Nat → Text → Text
  | 0, s => s
  | _ + 1, [] => []
  | fuel + 1, c :: cs =>
    match toks.find? (fun t => t.isPrefixOf (c :: cs)) with
    | some t => removeTokensFuel toks fuel ((c :: cs).drop t.length)
    | none => c :: removeTokensFuel toks fuel cs

def removeTokens (toks : List Text) (s : Text) : Text :=
  removeTokensFuel toks s.length s

/-- Line 28 of `src/app.py`: scrub the noise tokens from one page's text. -/
def scrub (s : Text) : Text := removeTokens noiseTokens s

/-- Regex `Q\.(\d+)` matched at the start of a line (`q_pattern.match` on
line 42): returns (digit run, rest of line) when the line starts with `Q.`
followed by at least one digit; the digit run is maximal since `\d+` is
greedy. -/
def qMatch (l : Text) : Option (Text × Text) :=
  match l with
  | 'Q' :: '.' :: rest =>
    if (rest.takeWhile Char.isDigit).isEmpty then none
    else some (rest.takeWhile Char.isDigit, rest.dropWhile Char.isDigit)
  | _ => none

/-- Numeric value of a digit run, as Python `int` on line 51. -/
def digitsToNat (ds : Text) : Nat :=
  ds.foldl (fun acc c => acc * 10 + (c.toNat - 48)) 0

/-- Regex `.*?([1-4])\.\s*(.*)` (`opt_pattern.match` on line 59): the lazy
`.*?` finds the first position whose character is one of `1`-`4` and is
immediately followed by `.`; group 2 is the rest of the line after the
greedy `\s*`. -/
def optMatch : Text → Option (Char × Text)
  | [] => none
  | c :: rest =>
    match rest with
    | '.' :: rest2 =>
      if c = '1' ∨ c = '2' ∨ c = '3' ∨ c = '4' then
        some (c, rest2.dropWhile Char.isWhitespace)
      else optMatch rest
    | _ => optMatch rest

/-- Substring containment, Python's `in` on strings. -/
def containsSub (pat : Text) : Text → Bool
  | [] => pat.isEmpty
  | c :: rest => pat.isPrefixOf (c :: rest) || containsSub pat rest

/-- Record shape built by `parse_rrb_pdf` for one question (lines 50-55). -/
structure Question where
  id : Nat
  question : Text
  options : List Text
  answer : Text
deriving DecidableEq

/-- Sentinel appended for missing options (lines 47 and 78 of `src/app.py`). -/
def missingOpt : Text := String.toList "Option missing from PDF"

/-- Lines 46-47 / 77-78: pad the options with the sentinel until length 4. -/
def padOptions (opts : List Text) : List Text :=
  opts ++ List.replicate (4 - opts.length) missingOpt

def finalizeQ (q : Question) : Question :=
  { q with options := padOptions q.options }

def ansTok : Text := String.toList "Ans"

/-- State of the line loop: the current question under construction and the
records already appended to `all_questions`. -/
abbrev ParseState := Option Question × List Question

/-- One iteration of the `for line in full_text.split('\n')` loop
(lines 38-73 of `src/app.py`). -/
def processLine (st : ParseState) (rawLine : Text) : ParseState :=
  let line := pyStrip rawLine
  if line.isEmpty then st
  else
    match qMatch line with
    | some (ds, _) =>
      let acc :=
        match st.1 with
        | some q => if q.question.isEmpty then st.2 else st.2 ++ [finalizeQ q]
        | none => st.2
      (some { id := digitsToNat ds,
              question := pyStrip (removeTokens ['Q' :: '.' :: ds] line),
              options := [],
              answer := [] }, acc)
    | none =>
      match st.1 with
      | none => st
      | some q =>
        match optMatch line with
        | some (_, tailText) =>
          if q.options.length < 4 then
            (some { q with
                      options := q.options ++ [pyStrip tailText],
                      answer :=
                        if line.contains '✔' || containsSub ansTok line then
                          pyStrip tailText
                        else q.answer }, st.2)
          else st
        | none =>
          if q.options.length < 4 && !containsSub ansTok line then
            (some { q with question := q.question ++ ' ' :: line }, st.2)
          else st

/-- Python `full_text.split('\n')`. -/
def splitNL : Text → List Text
  | [] => [[]]
  | c :: rest =>
    if c = '\n' then [] :: splitNL rest
    else
      match splitNL rest with
      | [] => [[c]]
      | l :: ls => (c :: l) :: ls

instance questionIdLeDec : DecidableRel (fun a b : Question => a.id ≤ b.id) :=
  fun a b => Nat.decLe a.id b.id

instance questionIdLeTotal : IsTotal Question (fun a b => a.id ≤ b.id) :=
  ⟨fun a b => Nat.le_total a.id b.id⟩

instance questionIdLeTrans : IsTrans Question (fun a b => a.id ≤ b.id) :=
  ⟨fun _ _ _ => Nat.le_trans⟩

/-- Line 81 of `src/app.py`: stable ascending sort by `id` (Python
`list.sort` is stable; a stable insertion sort returns the same list). -/
def sortById (l : List Question) : List Question :=
  List.insertionSort (fun a b => a.id ≤ b.id) l

/-- The unsorted record list: the loop of lines 38-73 followed by the
final-question flush of lines 76-79. -/
def collectRecords (fullText : Text) : List Question :=
  match (splitNL fullText).foldl processLine (none, []) with
  | (some q, acc) => acc ++ [finalizeQ q]
  | (none, acc) => acc

/-- Lines 36-82 of `src/app.py`: parse one document's text into records. -/
def parseText (fullText : Text) : List Question :=
  sortById (collectRecords fullText)

/-- Lines 22-29: the page texts are concatenated (empty pages skipped, each
non-empty page scrubbed, newline separator appended). -/
def buildFullText (pages : List Text) : Text :=
  pages.foldl (fun acc t => if t.isEmpty then acc else acc ++ scrub t ++ ['\n']) []

/-- Lines 20-82 of `src/app.py`, with the pdfplumber page texts as input. -/
def parse_rrb_pdf (pages : List Text) : List Question :=
  parseText (buildFullText pages)

/-- Projection of `processLine` that skips the `while`-padding when a
finished question is appended: the appended record keeps exactly the
detected options, in encounter order.  Every other step is identical to
`processLine`; it is used to state what `padOptions` adds to a record. -/
def processLineRaw (st : ParseState) (rawLine : Text) : ParseState :=
  let line := pyStrip rawLine
  if line.isEmpty then st
  else
    match qMatch line with
    | some (ds, _) =>
      let acc :=
        match st.1 with
        | some q => if q.question.isEmpty then st.2 else st.2 ++ [q]
        | none => st.2
      (some { id := digitsToNat ds,
              question := pyStrip (removeTokens ['Q' :: '.' :: ds] line),
              options := [],
              answer := [] }, acc)
    | none =>
      match st.1 with
      | none => st
      | some q =>
        match optMatch line with
        | some (_, tailText) =>
          if q.options.length < 4 then
            (some { q with
                      options := q.options ++ [pyStrip tailText],
                      answer :=
                        if line.contains '✔' || containsSub ansTok line then
                          pyStrip tailText
                        else q.answer }, st.2)
          else st
        | none =>
          if q.options.length < 4 && !containsSub ansTok line then
            (some { q with question := q.question ++ ' ' :: line }, st.2)
          else st

/-- Unpadded record list: the classifier of `parse_rrb_pdf` before the
sentinel padding is applied to each emitted record. -/
def collectRaw (fullText : Text) : List Question :=
  match (splitNL fullText).foldl processLineRaw (none, []) with
  | (some q, acc) => acc ++ [q]
  | (none, acc) => acc

/-- Invariant of every record the classifier builds: at most 4 options, and
the answer is either still the initial empty string or one of the options. -/
def RecordInv (q : Question) : Prop :=
  q.options.length ≤ 4 ∧ (q.answer = [] ∨ q.answer ∈ q.options)

/-- `RecordInv` for the current question and for every emitted record. -/
def StateInv (st : ParseState) : Prop :=
  (∀ q, st.1 = some q → RecordInv q) ∧ ∀ q ∈ st.2, RecordInv q

/-! Helper lemmas shared by the claim theorems. -/

lemma processLine_eq_raw (cur : Option Question) (acc : List Question) (l : Text) :
    processLine (cur, acc.map finalizeQ) l =
      ((processLineRaw (cur, acc) l).1, (processLineRaw (cur, acc) l).2.map finalizeQ) := by
  simp only [processLine, processLineRaw]
  by_cases h1 : (pyStrip l).isEmpty = true
  · simp [h1]
  · rw [if_neg h1, if_neg h1]
    cases h2 : qMatch (pyStrip l) with
    | some p =>
      obtain ⟨ds, r⟩ := p
      cases cur with
      | none => simp
      | some q =>
        by_cases h3 : q.question.isEmpty = true
        · simp [h3]
        · simp [h3]
    | none =>
      cases cur with
      | none => simp
      | some q =>
        cases h4 : optMatch (pyStrip l) with
        | some p =>
          obtain ⟨n, tl⟩ := p
          by_cases h5 : q.options.length < 4
          · simp [h5]
          · simp [h5]
        | none =>
          by_cases h6 : (decide (q.options.length < 4) && !containsSub ansTok (pyStrip l)) = true
          · simp [h6]
          · simp [h6]

lemma foldl_processLine_eq_raw (lines : List Text) :
    ∀ (cur : Option Question) (acc : List Question),
      lines.foldl processLine (cur, acc.map finalizeQ) =
        ((lines.foldl processLineRaw (cur, acc)).1,
         (lines.foldl processLineRaw (cur, acc)).2.map finalizeQ) := by
  induction lines with
  | nil => intro cur acc; rfl
  | cons l ls ih =>
    intro cur acc
    simp only [List.foldl_cons]
    rw [processLine_eq_raw]
    exact ih _ _

lemma collectRecords_eq_raw (t : Text) :
    collectRecords t = (collectRaw t).map finalizeQ := by
  unfold collectRecords collectRaw
  have h := foldl_processLine_eq_raw (splitNL t) none []
  simp only [List.map_nil] at h
  rw [h]
  cases hr : (splitNL t).foldl processLineRaw (none, []) with
  | mk cur a => cases cur <;> simp

lemma stateInv_processLineRaw {cur : Option Question} {acc : List Question}
    (h : StateInv (cur, acc)) (l : Text) : StateInv (processLineRaw (cur, acc) l) := by
  obtain ⟨hcur, hacc⟩ := h
  simp only [processLineRaw]
  by_cases h1 : (pyStrip l).isEmpty = true
  · rw [if_pos h1]; exact ⟨hcur, hacc⟩
  · rw [if_neg h1]
    cases h2 : qMatch (pyStrip l) with
    | some p =>
      obtain ⟨ds, r⟩ := p
      dsimp only
      refine ⟨?_, ?_⟩
      · intro q hq
        cases hq
        exact ⟨by simp, Or.inl rfl⟩
      · cases cur with
        | none => exact hacc
        | some q0 =>
          dsimp only
          by_cases h3 : q0.question.isEmpty = true
          · rw [if_pos h3]; exact hacc
          · rw [if_neg h3]
            intro q hq
            rcases List.mem_append.mp hq with h' | h'
            · exact hacc q h'
            · rw [ List.mem_singleton.mp h']
              exact hcur q0 rfl
    | none =>
      cases cur with
      | none => exact ⟨hcur, hacc⟩
      | some q0 =>
        dsimp only
        cases h4 : optMatch (pyStrip l) with
        | some p =>
          obtain ⟨n, tl⟩ := p
          dsimp only
          by_cases h5 : q0.options.length < 4
          · rw [if_pos h5]
            refine ⟨?_, hacc⟩
            intro q hq
            cases hq
            obtain ⟨hlen, hans⟩ := hcur q0 rfl
            refine ⟨by simp; omega, ?_⟩
            dsimp only
            by_cases h6 : (((pyStrip l).contains '✔' || containsSub ansTok (pyStrip l)) = true)
            · rw [if_pos h6]
              exact Or.inr (List.mem_append_right _ (List.mem_singleton.mpr rfl))
            · rw [if_neg h6]
              rcases hans with h' | h'
              · exact Or.inl h'
              · exact Or.inr (List.mem_append_left _ h')
          · rw [if_neg h5]; exact ⟨hcur, hacc⟩
        | none =>
          by_cases h6 : (decide (q0.options.length < 4) && !containsSub ansTok (pyStrip l)) = true
          · rw [if_pos h6]
            refine ⟨?_, hacc⟩
            intro q hq
            cases hq
            obtain ⟨hlen, hans⟩ := hcur q0 rfl
            exact ⟨hlen, hans⟩
          · rw [if_neg h6]; exact ⟨hcur, hacc⟩

lemma stateInv_foldlRaw (lines : List Text) :
    ∀ st : ParseState, StateInv st → StateInv (lines.foldl processLineRaw st) := by
  induction lines with
  | nil => intro st h; exact h
  | cons l ls ih =>
    intro st h
    simp only [List.foldl_cons]
    obtain ⟨c, a⟩ := st
    exact ih _ (stateInv_processLineRaw h l)

lemma collectRaw_inv (t : Text) : ∀ q ∈ collectRaw t, RecordInv q := by
  unfold collectRaw
  have h0 : StateInv ((none : Option Question), ([] : List Question)) := by
    refine ⟨?_, ?_⟩
    · intro q hq; cases hq
    · intro q hq; cases hq
  have h := stateInv_foldlRaw (splitNL t) (none, []) h0
  cases hr : (splitNL t).foldl processLineRaw (none, []) with
  | mk cur a =>
    rw [hr] at h
    obtain ⟨hc, ha⟩ := h
    cases cur with
    | none => exact ha
    | some q0 =>
      intro q hq
      rcases List.mem_append.mp hq with h' | h'
      · exact ha q h'
      · rw [ List.mem_singleton.mp h']
        exact hc q0 rfl

lemma parseText_perm (t : Text) : (parseText t).Perm (collectRecords t) :=
  List.perm_insertionSort _ _

lemma takeWhile_digit_append (ds rest : Text) (hds : ds.all Char.isDigit = true)
    (hrest : rest.head?.elim true (fun c => !c.isDigit) = true) :
    (ds ++ rest).takeWhile Char.isDigit = ds ∧ (ds ++ rest).dropWhile Char.isDigit = rest := by
  induction ds with
  | nil =>
    simp only [List.nil_append]
    cases rest with
    | nil => exact ⟨rfl, rfl⟩
    | cons c cs =>
      have hc : c.isDigit = false := by
        simp only [List.head?, Option.elim] at hrest
        simpa using hrest
      constructor
      · simp [List.takeWhile_cons, hc]
      · simp [List.dropWhile_cons, hc]
  | cons d ds ih =>
    simp only [List.all_cons, Bool.and_eq_true] at hds
    obtain ⟨h1, h2⟩ := ih hds.2
    constructor
    · simp [List.takeWhile_cons, hds.1, h1]
    · simp [List.dropWhile_cons, hds.1, h2]

lemma containsSub_cons_false {pat : Text} {c : Char} {cs : Text}
    (h : containsSub pat (c :: cs) = false) :
    pat.isPrefixOf (c :: cs) = false ∧ containsSub pat cs = false := by
  simpa [containsSub, Bool.or_eq_false_iff] using h

lemma removeTokensFuel_no_token (toks : List Text) :
    ∀ (n : Nat) (s : Text), (∀ t ∈ toks, containsSub t s = false) →
      removeTokensFuel toks n s = s := by
  intro n
  induction n with
  | zero => intro s _; rfl
  | succ m ih =>
    intro s hs
    cases s with
    | nil => rfl
    | cons c cs =>
      have hfind : toks.find? (fun t => t.isPrefixOf (c :: cs)) = none := by
        rw [List.find?_eq_none]
        intro t ht
        simp [(containsSub_cons_false (hs t ht)).1]
      simp only [removeTokensFuel, hfind]
      exact congrArg (c :: ·) (ih cs fun t ht => (containsSub_cons_false (hs t ht)).2)

lemma buildFullText_all_empty (pages : List Text) :
    ∀ acc : Text, (∀ p ∈ pages, p = []) →
      pages.foldl (fun acc t => if t.isEmpty then acc else acc ++ scrub t ++ ['\n']) acc = acc := by
  induction pages with
  | nil => intro acc _; rfl
  | cons p ps ih =>
    intro acc h
    have hp : p = [] := h p (List.mem_cons_self _ _)
    subst hp
    simp only [List.foldl_cons]
    exact ih acc fun q hq => h q (List.mem_cons_of_mem _ hq)

/-! Claim theorems. -/

/-- Claim C1 is false as stated: when no answer marker is detected in a
block, the code leaves `answer` as the empty string — there is no
`options[0]` fallback — so the emitted record's answer is neither a member
of the options nor equal to the first option.  Input: a question whose
four option lines carry no check glyph and no "Ans" marker. -/
theorem C1_counterexample :
    parseText (String.toList "Q.1 foo\n1. a\n2. b\n3. c\n4. d") =
      [{ id := 1, question := String.toList "foo",
         options := [['a'], ['b'], ['c'], ['d']], answer := [] }]
    ∧ ([] : Text) ∉ [(['a'] : Text), ['b'], ['c'], ['d']]
    ∧ ([] : Text) ≠ ['a'] :=
  ⟨by decide, by decide, by decide⟩

/-- Claim C1, amended: every output record has exactly 4 options, and its
answer is either the empty string (when no answer marker was detected;
there is no fallback to `options[0]`) or one of the options. -/
theorem C1_amended_record_shape (t : Text) (q : Question) (hq : q ∈ parseText t) :
    q.options.length = 4 ∧ (q.answer = [] ∨ q.answer ∈ q.options) := by
  have h1 : q ∈ collectRecords t := (parseText_perm t).mem_iff.mp hq
  rw [collectRecords_eq_raw] at h1
  obtain ⟨q0, hq0, rfl⟩ := List.mem_map.mp h1
  obtain ⟨hlen, hans⟩ := collectRaw_inv t q0 hq0
  constructor
  · show (padOptions q0.options).length = 4
    simp only [padOptions, List.length_append, List.length_replicate]
    omega
  · rcases hans with h' | h'
    · exact Or.inl h'
    · exact Or.inr (List.mem_append_left _ h')

theorem C1_witness :
    ({ id := 1, question := String.toList "What is 2+2?",
       options := [['3'], ['4'], ['5'], ['6']], answer := ['6'] } : Question).options.length = 4
    ∧ (({ id := 1, question := String.toList "What is 2+2?",
          options := [['3'], ['4'], ['5'], ['6']], answer := ['6'] } : Question).answer = []
       ∨ ({ id := 1, question := String.toList "What is 2+2?",
            options := [['3'], ['4'], ['5'], ['6']], answer := ['6'] } : Question).answer ∈
          ({ id := 1, question := String.toList "What is 2+2?",
             options := [['3'], ['4'], ['5'], ['6']], answer := ['6'] } : Question).options) :=
  C1_amended_record_shape (String.toList "Q.1 What is 2+2?\n1. 3\n2. 4\n3. 5\n✔4. 6") _ (by decide)

/-- Claim C2 is false as stated: blocks with fewer than 4 detected options
are indeed padded to length 4 in encounter order, but the sentinel string
the code appends is "Option missing from PDF", not "option not detected". -/
theorem C2_counterexample :
    (parseText (String.toList "Q.5\nWhat is the capital?\n1. Delhi\n2. Mumbai")).map
        Question.options =
      [[String.toList "Delhi", String.toList "Mumbai", missingOpt, missingOpt]]
    ∧ missingOpt ≠ String.toList "option not detected" :=
  ⟨by decide, by decide⟩

/-- Claim C2, amended: every output record is a classified record (detected
options in encounter order, at most 4 of them) padded with copies of the
sentinel "Option missing from PDF" until the length is exactly 4. -/
theorem C2_amended_padding (t : Text) :
    parseText t = sortById ((collectRaw t).map finalizeQ)
    ∧ (∀ q ∈ collectRaw t, q.options.length ≤ 4)
    ∧ (∀ q : Question,
        (finalizeQ q).options = q.options ++ List.replicate (4 - q.options.length) missingOpt) := by
  refine ⟨?_, ?_, fun q => rfl⟩
  · show sortById (collectRecords t) = _
    rw [collectRecords_eq_raw]
  · intro q hq
    exact (collectRaw_inv t q hq).1

theorem C2_witness :
    ({ id := 5, question := String.toList " What is the capital?",
       options := [String.toList "Delhi", String.toList "Mumbai"],
       answer := [] } : Question).options.length ≤ 4 :=
  (C2_amended_padding
      (String.toList "Q.5\nWhat is the capital?\n1. Delhi\n2. Mumbai")).2.1 _ (by decide)

/-- Claim C3 is false as stated: the code sorts by id but never removes
duplicate ids — two blocks both numbered 1 yield two output records with
id 1, so the output ids are not pairwise unique. -/
theorem C3_counterexample :
    (parseText (String.toList "Q.1 a\n1. x\nQ.1 b\n1. y")).map Question.id = [1, 1]
    ∧ ¬ ((parseText (String.toList "Q.1 a\n1. x\nQ.1 b\n1. y")).map Question.id).Nodup :=
  ⟨by decide, by decide⟩

/-- Claim C3, amended: the output records are sorted by id in ascending
order (a stable sort of the collected records), but duplicate ids are kept,
not removed. -/
theorem C3_amended_sorted (t : Text) :
    List.Sorted (fun a b : Question => a.id ≤ b.id) (parseText t)
    ∧ (parseText t).Perm (collectRecords t) :=
  ⟨List.sorted_insertionSort _ _, List.perm_insertionSort _ _⟩

theorem C3_witness :
    List.Sorted (fun a b : Question => a.id ≤ b.id)
      (parseText (String.toList "Q.2 b\nQ.1 a"))
    ∧ (parseText (String.toList "Q.2 b\nQ.1 a")).Perm
        (collectRecords (String.toList "Q.2 b\nQ.1 a")) :=
  C3_amended_sorted _

/-- Claim C4: scenario A parses to exactly the claimed record. -/
theorem C4_scenarioA :
    parseText (String.toList "Q.1 What is 2+2?\n1. 3\n2. 4\n3. 5\n✔4. 6") =
      [{ id := 1, question := String.toList "What is 2+2?",
         options := [String.toList "3", String.toList "4", String.toList "5", String.toList "6"],
         answer := String.toList "6" }] := by decide

/-- Claim C5 is false as stated: on scenario B the code produces a question
text with a leading space (body lines are glued with `" " + line` onto an
initially empty question), the sentinel "Option missing from PDF", and an
empty answer (no fallback to the first option). -/
theorem C5_counterexample :
    parseText (String.toList "Q.5\nWhat is the capital?\n1. Delhi\n2. Mumbai") ≠
      [{ id := 5, question := String.toList "What is the capital?",
         options := [String.toList "Delhi", String.toList "Mumbai",
                     String.toList "option not detected", String.toList "option not detected"],
         answer := String.toList "Delhi" }] := by decide

/-- Claim C5, amended: scenario B yields one record with id 5, question
text " What is the capital?" (note the leading space), the two detected
options followed by two "Option missing from PDF" sentinels, and an empty
answer. -/
theorem C5_amended_scenarioB :
    parseText (String.toList "Q.5\nWhat is the capital?\n1. Delhi\n2. Mumbai") =
      [{ id := 5, question := String.toList " What is the capital?",
         options := [String.toList "Delhi", String.toList "Mumbai", missingOpt, missingOpt],
         answer := [] }] := by decide

/-- Claim C6 is false as stated: a marker block that accumulates no
question text is dropped, not emitted, when the next marker arrives — the
input has markers 1 and 2, but id 1 is silently missing from the output. -/
theorem C6_counterexample :
    (parseText (String.toList "Q.1\nQ.2 x\n1. a")).map Question.id = [2]
    ∧ (1 : Nat) ∉ (parseText (String.toList "Q.1\nQ.2 x\n1. a")).map Question.id :=
  ⟨by decide, by decide⟩

/-- Claim C6, amended: when a new marker line arrives while the current
question's accumulated text is empty, the current record is dropped (its
id is lost); only the final block of the text is emitted with an empty
question, as the end-of-loop flush does not test the question text. -/
theorem C6_amended_empty_block :
    (∀ (q : Question) (acc : List Question) (l : Text),
        q.question = [] → (qMatch (pyStrip l)).isSome = true →
        (processLine (some q, acc) l).2 = acc)
    ∧ parseText (String.toList "Q.7") =
        [{ id := 7, question := [], options := List.replicate 4 missingOpt, answer := [] }] := by
  constructor
  · intro q acc l hq hsome
    obtain ⟨p, hp⟩ := Option.isSome_iff_exists.mp hsome
    obtain ⟨ds, r⟩ := p
    have hne : ¬ ((pyStrip l).isEmpty = true) := by
      intro he
      rw [List.isEmpty_iff] at he
      rw [he] at hp
      simp [qMatch] at hp
    simp only [processLine]
    rw [if_neg hne, hp]
    dsimp only
    have hqe : q.question.isEmpty = true := by rw [hq]; rfl
    rw [if_pos hqe]
  · decide

theorem C6_witness :
    (processLine (some { id := 1, question := [], options := [], answer := [] }, [])
        (String.toList "Q.2 x")).2 = [] :=
  C6_amended_empty_block.1 _ [] _ rfl (by decide)

/-- Claim C7: the marker regex `Q\.(\d+)` anchored at the start of the line
takes the maximal digit run, so a marker for N can never match inside the
literal text of a marker whose number extends N — concretely, a line
beginning "Q.35" yields id 35 and never id 3. -/
theorem C7_marker_boundary :
    (∀ (ds rest : Text), ds ≠ [] → ds.all Char.isDigit = true →
        rest.head?.elim true (fun c => !c.isDigit) = true →
        qMatch ('Q' :: '.' :: (ds ++ rest)) = some (ds, rest))
    ∧ (parseText (String.toList "Q.35 w\n1. a")).map Question.id = [35] := by
  constructor
  · intro ds rest h0 hds hrest
    obtain ⟨h1, h2⟩ := takeWhile_digit_append ds rest hds hrest
    have hne : ds.isEmpty = false := by
      cases ds with
      | nil => exact absurd rfl h0
      | cons d ds => rfl
    simp [qMatch, h1, h2, hne]
  · decide

theorem C7_witness :
    qMatch ('Q' :: '.' :: (['3', '5'] ++ [' ', 'w'])) = some (['3', '5'], [' ', 'w']) :=
  C7_marker_boundary.1 ['3', '5'] [' ', 'w'] (by decide) (by decide) (by decide)

/-- Claim C8 is false: the single left-to-right removal pass is not
idempotent, because deleting an occurrence can glue the surrounding text
into a fresh noise token.  On "AddaAdda247247" one scrub leaves
"Adda247" (a noise token), and a second scrub removes it. -/
theorem C8_counterexample :
    scrub (scrub (String.toList "AddaAdda247247")) ≠
      scrub (String.toList "AddaAdda247247") := by decide

/-- Claim C8, amended: scrubbing is a no-op on any text in which no noise
token occurs as a substring; idempotence holds only when the first scrub
leaves such a text, which is not guaranteed. -/
theorem C8_amended_scrub_noop (s : Text)
    (h : ∀ t ∈ noiseTokens, containsSub t s = false) : scrub s = s :=
  removeTokensFuel_no_token noiseTokens s.length s h

theorem C8_witness : scrub (String.toList "Q.1 ok") = String.toList "Q.1 ok" :=
  C8_amended_scrub_noop _ (by decide)

/-- Claim C9 is false: with no usable page text the parser returns the
empty record set silently; there is no "no content" error signal anywhere
in `parse_rrb_pdf`. -/
theorem C9_counterexample : parse_rrb_pdf [[], []] = [] := by decide

/-- Claim C9, amended: when every page yields empty text, `parse_rrb_pdf`
returns the empty record set (it is total and signals no error). -/
theorem C9_amended_empty_input (pages : List Text) (h : ∀ p ∈ pages, p = []) :
    parse_rrb_pdf pages = [] := by
  have hb : buildFullText pages = [] := buildFullText_all_empty pages [] h
  show parseText (buildFullText pages) = []
  rw [hb]
  decide

theorem C9_witness : parse_rrb_pdf [[]] = [] :=
  C9_amended_empty_input [[]] (by decide)

/-- Claim C10 is false in its second half: a line with an embedded "Q.N"
not at the start does never open a new record, but it is not necessarily
accumulated into the question body — here "see Q.2. here" matches the
option pattern (the "2." inside it) and becomes an option instead. -/
theorem C10_counterexample :
    parseText (String.toList "Q.1 intro\nsee Q.2. here") =
      [{ id := 1, question := String.toList "intro",
         options := [String.toList "here", missingOpt, missingOpt, missingOpt],
         answer := [] }]
    ∧ String.toList "intro" ≠ String.toList "intro see Q.2. here" :=
  ⟨by decide, by decide⟩

/-- Claim C10, amended: a line that does not itself start (after stripping)
with a question marker never starts a new record — the emitted-record list
and the current record's id are unchanged — but the line is handled as an
ordinary content line (option line, body text, or dropped), not always as
body text. -/
theorem C10_amended_no_new_record (st : ParseState) (l : Text)
    (hq : qMatch (pyStrip l) = none) :
    (processLine st l).2 = st.2
    ∧ (processLine st l).1.map Question.id = st.1.map Question.id := by
  obtain ⟨cur, acc⟩ := st
  simp only [processLine, hq]
  by_cases h1 : (pyStrip l).isEmpty = true
  · simp [h1]
  · rw [if_neg h1]
    cases cur with
    | none => exact ⟨rfl, rfl⟩
    | some q =>
      dsimp only
      cases h4 : optMatch (pyStrip l) with
      | some p =>
        obtain ⟨n, tl⟩ := p
        dsimp only
        by_cases h5 : q.options.length < 4
        · simp [h5]
        · simp [h5]
      | none =>
        by_cases h6 : (decide (q.options.length < 4) && !containsSub ansTok (pyStrip l)) = true
        · simp [h6]
        · simp [h6]

theorem C10_witness :
    (processLine (some { id := 1, question := ['a'], options := [], answer := [] }, [])
        (String.toList "hello")).2 = ([] : List Question)
    ∧ (processLine (some { id := 1, question := ['a'], options := [], answer := [] }, [])
        (String.toList "hello")).1.map Question.id =
      (some { id := 1, question := ['a'], options := [], answer := [] } : Option Question).map
        Question.id :=
  C10_amended_no_new_record _ _ (by decide)

end QuestionBank
